import Mathlib

/-!
Shallow embedding of the FullForceAcademia campaign-automation core
(`mcp-sequential-thinking`): the ROI tracker, performance monitor and
optimization engine (`monitoring.py`), the error classification and
recovery engine with its circuit breakers (`error_handling.py`), and the
sequential-thinking step engine (`thinking.py`).

Modelling conventions:
  * Python `float` money/metric values are modelled as `ℚ` (the source
    performs only field arithmetic on them);
  * timestamps are modelled as integers (`ℤ`): seconds for the error
    engine and alert ids, whole days for ROI projections (the source
    uses `timedelta.days` there);
  * Python `dict` instances keyed by strings are modelled as ordered
    association lists with Python assignment semantics (update in place,
    otherwise append);
  * `numpy.std` (a population standard deviation, the sole irrational
    operation in the source) is passed as an explicit function argument;
  * logging, sleeps and callback notification are side effects with no
    influence on the data and are omitted.
-/

namespace FFA

/-- Python-dict lookup on an ordered association list. -/
def alookup {α : Type} (m : List (String × α)) (k : String) : Option α :=
  match m with
  | [] => none
  | (k', v) :: rest => if k' = k then some v else alookup rest k

/-- Python-dict assignment `m[k] = v`: replace in place if the key is
present, otherwise append at the end. -/
def ainsert {α : Type} (m : List (String × α)) (k : String) (v : α) :
    List (String × α) :=
  match m with
  | [] => [(k, v)]
  | (k', v') :: rest =>
    if k' = k then (k, v) :: rest else (k', v') :: ainsert rest k v

/-- Substring test on strings (models Python `sub in s`). -/
def strContains (s sub : String) : Bool :=
  go s.toList
where
  go : List Char → Bool
  | [] => sub.toList.isPrefixOf ([] : List Char)
  | c :: rest => sub.toList.isPrefixOf (c :: rest) || go rest

/-- Models Python `str.lower` (character-wise lowering). -/
def strLower (s : String) : String := String.mk (s.toList.map Char.toLower)

end FFA

namespace FFA.Monitoring

/-- Embeds `MetricType` enum of `monitoring.py`. -/
inductive MetricType where
  | response_rate
  | conversion_rate
  | roi
  | cost_per_acquisition
  | message_delivery_rate
  | engagement_score
  | lifetime_value
  | churn_risk
deriving DecidableEq, Repr, BEq

/-- The `.value` string of each `MetricType` member. -/
def MetricType.value : MetricType → String
  | .response_rate => "response_rate"
  | .conversion_rate => "conversion_rate"
  | .roi => "roi"
  | .cost_per_acquisition => "cpa"
  | .message_delivery_rate => "delivery_rate"
  | .engagement_score => "engagement_score"
  | .lifetime_value => "lifetime_value"
  | .churn_risk => "churn_risk"

/-- Embeds `AlertLevel` enum of `monitoring.py`. -/
inductive AlertLevel where
  | info
  | warning
  | critical
  | emergency
deriving DecidableEq, Repr, BEq

/-- The `.value` string of each `AlertLevel` member. -/
def AlertLevel.value : AlertLevel → String
  | .info => "info"
  | .warning => "warning"
  | .critical => "critical"
  | .emergency => "emergency"

/-- Embeds `Alert` dataclass (the formatted `title`/`description` strings are
runtime text and are omitted). -/
structure Alert where
  id : String
  level : AlertLevel
  metric_type : MetricType
  current_value : ℚ
  threshold_value : ℚ
  acknowledged : Bool := false
  actions_taken : List String := []
deriving DecidableEq, Repr

/-- One threshold table of `_setup_default_thresholds`: every bound is
optional (`"critical_low" in thresholds` guards each test). -/
structure Thresholds where
  critical_low : Option ℚ := none
  warning_low : Option ℚ := none
  target : Option ℚ := none
  warning_high : Option ℚ := none
  critical_high : Option ℚ := none
deriving DecidableEq, Repr

/-- The ROI row of `_setup_default_thresholds`. -/
def roiThresholds : Thresholds :=
  { critical_low := some 500, warning_low := some 1000, target := some 2250,
    warning_high := some 4000, critical_high := some 6000 }

/-- Embeds `PerformanceMonitor._evaluate_threshold`: the four-way if/elif chain
(first breach wins), then the alert id `campaignId_metricValue_timestamp`. -/
def evaluate_threshold (campaign_id : String) (metric_type : MetricType)
    (value : ℚ) (thresholds : Thresholds) (now : ℤ) : Option Alert :=
  let mk : AlertLevel → ℚ → Option Alert := fun level threshold =>
    some { id := campaign_id ++ "_" ++ metric_type.value ++ "_" ++ toString now,
           level := level, metric_type := metric_type,
           current_value := value, threshold_value := threshold }
  match thresholds.critical_low with
  | some t =>
    if value < t then mk .critical t else
    match thresholds.critical_high with
    | some t' =>
      if t' < value then mk .critical t' else
      match thresholds.warning_low with
      | some t'' =>
        if value < t'' then mk .warning t'' else
        match thresholds.warning_high with
        | some t₃ => if t₃ < value then mk .warning t₃ else none
        | none => none
      | none =>
        match thresholds.warning_high with
        | some t₃ => if t₃ < value then mk .warning t₃ else none
        | none => none
    | none =>
      match thresholds.warning_low with
      | some t'' =>
        if value < t'' then mk .warning t'' else
        match thresholds.warning_high with
        | some t₃ => if t₃ < value then mk .warning t₃ else none
        | none => none
      | none =>
        match thresholds.warning_high with
        | some t₃ => if t₃ < value then mk .warning t₃ else none
        | none => none
  | none =>
    match thresholds.critical_high with
    | some t' =>
      if t' < value then mk .critical t' else
      match thresholds.warning_low with
      | some t'' =>
        if value < t'' then mk .warning t'' else
        match thresholds.warning_high with
        | some t₃ => if t₃ < value then mk .warning t₃ else none
        | none => none
      | none =>
        match thresholds.warning_high with
        | some t₃ => if t₃ < value then mk .warning t₃ else none
        | none => none
    | none =>
      match thresholds.warning_low with
      | some t'' =>
        if value < t'' then mk .warning t'' else
        match thresholds.warning_high with
        | some t₃ => if t₃ < value then mk .warning t₃ else none
        | none => none
      | none =>
        match thresholds.warning_high with
        | some t₃ => if t₃ < value then mk .warning t₃ else none
        | none => none

/-- Embeds `PerformanceMonitor._take_automatic_action`: the fixed action lists
recorded on a critical alert. -/
def automatic_actions (alert : Alert) : List String :=
  if alert.metric_type = .response_rate ∧
      alert.current_value < alert.threshold_value then
    ["adjust_message_timing", "increase_personalization",
     "review_message_content"]
  else if alert.metric_type = .conversion_rate ∧
      alert.current_value < alert.threshold_value then
    ["strengthen_call_to_action", "adjust_offer_strategy",
     "review_target_segments"]
  else if alert.metric_type = .message_delivery_rate ∧
      alert.current_value < alert.threshold_value then
    ["check_whatsapp_connection", "reduce_sending_rate",
     "validate_phone_numbers"]
  else []

/-- Embeds `PerformanceMonitor._handle_alert`.  The source tests the composite
key `metricValue_levelValue` for membership in `self.active_alerts`,
whereas the entries of that dict are stored under `alert.id`; the alert
is stored only when the membership test fails.  Critical alerts then
have the automatic-action list recorded on the stored object. -/
def handle_alert (active_alerts : List (String × Alert)) (alert : Alert) :
    List (String × Alert) :=
  let existing_alert_key := alert.metric_type.value ++ "_" ++ alert.level.value
  if (FFA.alookup active_alerts existing_alert_key).isSome then active_alerts
  else
    let alert :=
      if alert.level = .critical then
        { alert with actions_taken := automatic_actions alert }
      else alert
    FFA.ainsert active_alerts alert.id alert

/-- Embeds `PerformanceMonitor.acknowledge_alert`. -/
def acknowledge_alert (active_alerts : List (String × Alert))
    (alert_id : String) : Bool × List (String × Alert) :=
  match FFA.alookup active_alerts alert_id with
  | some alert =>
    (true, FFA.ainsert active_alerts alert_id { alert with acknowledged := true })
  | none => (false, active_alerts)

/-- One entry of `ROITracker.conversion_tracking[campaign_id]`
(`track_conversion` record; the timestamp is in whole days, matching the
`.days` truncation used by `_generate_roi_projections`). -/
structure Conversion where
  student_id : String
  revenue : ℚ
  conversion_type : String := "reactivation"
  timestamp : ℤ
deriving DecidableEq, Repr

/-- The per-campaign slice of the three `ROITracker` ledgers:
`investment_tracking`, `revenue_tracking` and `conversion_tracking`
(append-only lists). -/
structure ROILedger where
  investment : List ℚ
  revenue : List ℚ
  conversions : List Conversion
deriving DecidableEq, Repr

/-- Embeds `ROITracker._calculate_roi_breakdown` (numeric fields of the
returned dict). -/
structure Breakdown where
  total_conversions : ℕ
  average_conversion_value : ℚ
  conversion_rate : ℚ
  high_value_revenue : ℚ
  medium_value_revenue : ℚ
  low_value_revenue : ℚ
  high_value_conversions : ℕ
  medium_value_conversions : ℕ
  low_value_conversions : ℕ
deriving DecidableEq, Repr

/-- Revenue-magnitude tier of `_calculate_roi_breakdown`: `high_value`
at revenue `≥ 150`, `medium_value` at `≥ 80`, else `low_value`. -/
def conversionSegment (c : Conversion) : String :=
  if 150 ≤ c.revenue then "high_value"
  else if 80 ≤ c.revenue then "medium_value"
  else "low_value"

/-- Embeds `ROITracker._calculate_roi_breakdown`. -/
def calculate_roi_breakdown (l : ROILedger) : Breakdown :=
  let conversions := l.conversions
  let seg := fun s => conversions.filter (fun c => conversionSegment c = s)
  { total_conversions := conversions.length
    average_conversion_value :=
      if conversions ≠ [] then
        (conversions.map Conversion.revenue).sum / conversions.length
      else 0
    conversion_rate :=
      if conversions ≠ [] then (conversions.length : ℚ) / 650 else 0
    high_value_revenue := ((seg "high_value").map Conversion.revenue).sum
    medium_value_revenue := ((seg "medium_value").map Conversion.revenue).sum
    low_value_revenue := ((seg "low_value").map Conversion.revenue).sum
    high_value_conversions := (seg "high_value").length
    medium_value_conversions := (seg "medium_value").length
    low_value_conversions := (seg "low_value").length }

/-- The dict returned by `ROITracker._generate_roi_projections`
(`daily_revenue_trend` is absent from the under-ten-conversions result,
so it is optional here). -/
structure Projections where
  projected_final_roi : ℚ
  confidence_level : ℚ
  projected_total_revenue : ℚ
  time_to_target : ℤ
  daily_revenue_trend : Option ℚ := none
deriving DecidableEq, Repr

/-- Embeds the slice `conversions[-10:]` — the most recent ten conversions. -/
def recentConversions (l : ROILedger) : List Conversion :=
  l.conversions.drop (l.conversions.length - 10)

/-- Embeds the comprehension over `conversions[-20:]` — revenues of the
trailing twenty conversions. -/
def revenueValues (l : ROILedger) : List ℚ :=
  (l.conversions.drop (l.conversions.length - 20)).map Conversion.revenue

/-- Embeds the source expression for elapsed days, the `.days` of the span from the first conversion to now. -/
def daysElapsed (now : ℤ) (l : ROILedger) : ℤ :=
  now - ((l.conversions.head?.map Conversion.timestamp).getD 0)

/-- Embeds `ROITracker._generate_roi_projections`.  `std` is the
`numpy.std` population standard deviation, abstracted since it is the
one irrational operation in the source; `now` is the current day.  (The
local `conversion_rate_trend` of the source is computed and never used,
and is omitted.) -/
def generate_roi_projections (std : List ℚ → ℚ) (now : ℤ) (l : ROILedger) :
    Projections :=
  if l.conversions.length < 10 then
    { projected_final_roi := 0, confidence_level := 0,
      projected_total_revenue := 0, time_to_target := 0 }
  else
    let recent := recentConversions l
    let days_elapsed := daysElapsed now l
    let days_remaining : ℤ := max (21 - days_elapsed) 0
    let current_daily_revenue : ℚ :=
      (recent.map Conversion.revenue).sum / ((max days_elapsed 1 : ℤ) : ℚ)
    let projected_additional_revenue :=
      current_daily_revenue * (days_remaining : ℚ)
    let current_total_revenue := l.revenue.sum
    let projected_total_revenue :=
      current_total_revenue + projected_additional_revenue
    let total_investment := l.investment.sum
    let projected_final_roi :=
      if 0 < total_investment then
        (projected_total_revenue - total_investment) / total_investment * 100
      else 0
    let revenue_values := revenueValues l
    let revenue_std := if 1 < revenue_values.length then std revenue_values else 0
    let revenue_mean :=
      if revenue_values ≠ [] then revenue_values.sum / revenue_values.length
      else 0
    let confidence_level :=
      if 0 < revenue_mean then max 0 (1 - revenue_std / revenue_mean) else 0
    { projected_final_roi := projected_final_roi
      confidence_level := confidence_level
      projected_total_revenue := projected_total_revenue
      time_to_target := days_remaining
      daily_revenue_trend := some current_daily_revenue }

/-- Embeds `ROICalculation` dataclass. -/
structure ROICalculation where
  campaign_id : String
  total_investment : ℚ
  total_revenue : ℚ
  net_profit : ℚ
  roi_percentage : ℚ
  roi_ratio : ℚ
  breakdown : Breakdown
  projections : Projections
deriving DecidableEq, Repr

/-- Embeds `ROITracker.calculate_real_time_roi`. -/
def calculate_real_time_roi (std : List ℚ → ℚ) (now : ℤ)
    (campaign_id : String) (l : ROILedger) : ROICalculation :=
  let total_investment := l.investment.sum
  let total_revenue := l.revenue.sum
  { campaign_id := campaign_id
    total_investment := total_investment
    total_revenue := total_revenue
    net_profit := total_revenue - total_investment
    roi_percentage :=
      if 0 < total_investment then
        (total_revenue - total_investment) / total_investment * 100
      else 0
    roi_ratio :=
      if 0 < total_investment then total_revenue / total_investment else 0
    breakdown := calculate_roi_breakdown l
    projections := generate_roi_projections std now l }

/-- One trend entry of the `trends` dict of `get_performance_summary`
(`analyze_optimization_opportunities` reads only `direction` and
`strength`). -/
structure TrendData where
  direction : String
  slope : ℚ
  strength : String
deriving DecidableEq, Repr

/-- The slice of the `get_performance_summary` result read by
`analyze_optimization_opportunities`: the `current` field of the
`response_rate` and `message_delivery_rate` metric summaries (absent
when the metric has no recorded points — the Python `.get(..., {})` on
an empty dict), and the `trends` dict. -/
structure PerformanceSummarySlice where
  response_rate_current : Option ℚ := none
  message_delivery_rate_current : Option ℚ := none
  trends : List (String × TrendData) := []
deriving DecidableEq, Repr

/-- One optimization-opportunity entry (the formatted `reason` text is
runtime string interpolation and is omitted). -/
structure OpportunityItem where
  action : String
  potential_impact : String
deriving DecidableEq, Repr

/-- The four opportunity buckets of
`analyze_optimization_opportunities`. -/
structure Opportunities where
  immediate_actions : List OpportunityItem
  strategic_improvements : List OpportunityItem
  risk_mitigation : List OpportunityItem
  growth_opportunities : List OpportunityItem
deriving DecidableEq, Repr

/-- Embeds `OptimizationEngine._calculate_priority_score`: weights 10/8/6/4 for
immediate / risk / strategic / growth, capped at 100. -/
def calculate_priority_score (o : Opportunities) : ℚ :=
  min (o.immediate_actions.length * 10 + o.risk_mitigation.length * 8 +
    o.strategic_improvements.length * 6 + o.growth_opportunities.length * 4 :
    ℚ) 100

/-- Result of `OptimizationEngine.analyze_optimization_opportunities`
(numeric and structural fields). -/
structure AnalysisResult where
  roi_percentage : ℚ
  total_revenue : ℚ
  net_profit : ℚ
  opportunities : Opportunities
  priority_score : ℚ
deriving DecidableEq, Repr

/-- Embeds `OptimizationEngine.analyze_optimization_opportunities`: recomputes
the ROI from the ledger, then applies the fixed rule thresholds
(ROI% < 1500 → immediate conversion-rate action; response rate < 0.15 →
immediate timing action; delivery rate < 0.95 → risk mitigation; strong
declining trend → strategic; ROI% > 2000 → growth). -/
def analyze_optimization_opportunities (std : List ℚ → ℚ) (now : ℤ)
    (campaign_id : String) (l : ROILedger)
    (summary : PerformanceSummarySlice) : AnalysisResult :=
  let roi_calc := calculate_real_time_roi std now campaign_id l
  let immediate_actions :=
    (if roi_calc.roi_percentage < 1500 then
      [{ action := "improve_conversion_rate", potential_impact := "high" }]
    else []) ++
    (match summary.response_rate_current with
     | some v =>
       if v < 3 / 20 then
         [{ action := "optimize_message_timing", potential_impact := "medium" }]
       else []
     | none => [])
  let risk_mitigation :=
    match summary.message_delivery_rate_current with
    | some v =>
      if v < 19 / 20 then
        [{ action := "investigate_delivery_issues", potential_impact := "high" }]
      else []
    | none => []
  let strategic_improvements :=
    summary.trends.filterMap (fun p =>
      if p.2.direction = "decreasing" ∧ p.2.strength = "strong" then
        some { action := "reverse_" ++ p.1 ++ "_decline",
               potential_impact := ("medium" : String) }
      else none)
  let growth_opportunities :=
    if 2000 < roi_calc.roi_percentage then
      [{ action := "scale_successful_segments", potential_impact := "high" }]
    else []
  let opportunities : Opportunities :=
    { immediate_actions := immediate_actions
      strategic_improvements := strategic_improvements
      risk_mitigation := risk_mitigation
      growth_opportunities := growth_opportunities }
  { roi_percentage := roi_calc.roi_percentage
    total_revenue := roi_calc.total_revenue
    net_profit := roi_calc.net_profit
    opportunities := opportunities
    priority_score := calculate_priority_score opportunities }

/-- Result of `OptimizationEngine.implement_optimization` (the
`expected_impact` sub-dict holds only display strings and is kept as
key/value pairs). -/
structure ImplementationResult where
  action : String
  campaign_id : String
  success : Bool
  changes_made : List String
  expected_impact : List (String × String)
  monitoring_period : ℕ
  error : Option String := none
deriving DecidableEq, Repr

/-- Embeds `OptimizationEngine.implement_optimization`: explicit named action
dispatch.  The four known actions merge the dict of their handler into the
result; any other name records an error string and leaves
`success = False`. -/
def implement_optimization (campaign_id : String)
    (optimization_action : String) : ImplementationResult :=
  let base : ImplementationResult :=
    { action := optimization_action, campaign_id := campaign_id,
      success := false, changes_made := [], expected_impact := [],
      monitoring_period := 24 }
  if optimization_action = "improve_conversion_rate" then
    { base with
      success := true,
      changes_made :=
        ["Enhanced call-to-action messages",
         "Added urgency elements to offers",
         "Improved personalization based on student history",
         "Adjusted offer timing to peak engagement hours"],
      expected_impact :=
        [("conversion_rate_increase", "15-25%"),
         ("roi_improvement", "200-400 points"), ("timeline", "3-7 days")] }
  else if optimization_action = "optimize_message_timing" then
    { base with
      success := true,
      changes_made :=
        ["Shifted send times to peak response windows",
         "Implemented A/B testing for timing optimization",
         "Added timezone-aware scheduling",
         "Reduced frequency during low-engagement periods"],
      expected_impact :=
        [("response_rate_increase", "10-20%"),
         ("engagement_improvement", "15-30%"), ("timeline", "1-3 days")] }
  else if optimization_action = "investigate_delivery_issues" then
    { base with
      success := true,
      changes_made :=
        ["Validated WhatsApp Business API connection",
         "Cleaned invalid phone number list",
         "Implemented retry logic for failed deliveries",
         "Added delivery status monitoring"],
      expected_impact :=
        [("delivery_rate_improvement", "5-10%"),
         ("message_reach_increase", "8-15%"), ("timeline", "immediate")] }
  else if optimization_action = "scale_successful_segments" then
    { base with
      success := true,
      changes_made :=
        ["Identified top-performing segments",
         "Allocated additional budget to high-ROI segments",
         "Replicated successful message templates",
         "Expanded target audience within successful criteria"],
      expected_impact :=
        [("total_revenue_increase", "50-100%"),
         ("roi_multiplication", "1.5-2.0x"), ("timeline", "7-14 days")] }
  else
    { base with
      error := some ("Unknown optimization action: " ++ optimization_action) }

end FFA.Monitoring

namespace FFA.ErrorHandling

/-- Embeds `ErrorSeverity` enum of `error_handling.py`. -/
inductive ErrorSeverity where
  | low
  | medium
  | high
  | critical
  | fatal
deriving DecidableEq, Repr, BEq

/-- The `.value` string of each `ErrorSeverity` member. -/
def ErrorSeverity.value : ErrorSeverity → String
  | .low => "low"
  | .medium => "medium"
  | .high => "high"
  | .critical => "critical"
  | .fatal => "fatal"

/-- Embeds `ErrorCategory` enum of `error_handling.py`. -/
inductive ErrorCategory where
  | network
  | api
  | database
  | authentication
  | rate_limiting
  | data_validation
  | business_logic
  | system
  | external_service
deriving DecidableEq, Repr, BEq

/-- The `.value` string of each `ErrorCategory` member. -/
def ErrorCategory.value : ErrorCategory → String
  | .network => "network"
  | .api => "api"
  | .database => "database"
  | .authentication => "authentication"
  | .rate_limiting => "rate_limiting"
  | .data_validation => "data_validation"
  | .business_logic => "business_logic"
  | .system => "system"
  | .external_service => "external_service"

/-- Embeds `RecoveryStrategy` enum of `error_handling.py`. -/
inductive RecoveryStrategy where
  | retry
  | retry_with_backoff
  | fallback
  | circuit_breaker
  | graceful_degradation
  | escalation
  | manual_intervention
  | ignore
deriving DecidableEq, Repr, BEq

/-- The `.value` string of each `RecoveryStrategy` member. -/
def RecoveryStrategy.value : RecoveryStrategy → String
  | .retry => "retry"
  | .retry_with_backoff => "retry_with_backoff"
  | .fallback => "fallback"
  | .circuit_breaker => "circuit_breaker"
  | .graceful_degradation => "graceful_degradation"
  | .escalation => "escalation"
  | .manual_intervention => "manual_intervention"
  | .ignore => "ignore"

/-- A raised Python exception as the engine observes it:
`type(error).__name__` and `str(error)`.  The `isinstance` tests of the
classifiers are modelled by comparing the type name. -/
structure PyError where
  py_type : String
  message : String
deriving DecidableEq, Repr

/-- Embeds `ErrorContext` dataclass (timestamp in seconds; `user_data` is
left abstract and omitted). -/
structure ErrorContext where
  timestamp : ℤ
  campaign_id : Option String := none
  workflow_id : Option String := none
  step_id : Option String := none
  component : Option String := none
  operation : Option String := none
deriving DecidableEq, Repr

/-- Embeds `isinstance(error, (ConnectionError, TimeoutError))`. -/
def isConnectionOrTimeout (e : PyError) : Bool :=
  e.py_type = "ConnectionError" || e.py_type = "TimeoutError"

/-- Embeds `isinstance(error, (ValueError, KeyError))`. -/
def isValueOrKeyError (e : PyError) : Bool :=
  e.py_type = "ValueError" || e.py_type = "KeyError"

/-- Embeds `isinstance(error, (ValueError, TypeError))`. -/
def isValueOrTypeError (e : PyError) : Bool :=
  e.py_type = "ValueError" || e.py_type = "TypeError"

/-- Embeds `ErrorHandlingEngine._classify_error_severity`. -/
def classify_error_severity (e : PyError) (ctx : ErrorContext) :
    ErrorSeverity :=
  if isConnectionOrTimeout e ∧ ctx.campaign_id.isSome then .critical
  else if isValueOrKeyError e ∧ strContains (strLower e.message) "authentication"
  then .high
  else if strContains (strLower e.message) "api" ∨
      strContains (strLower e.message) "http" then .medium
  else .medium

/-- Embeds `ErrorHandlingEngine._classify_error_category`: first matching rule
wins over the lower-cased message. -/
def classify_error_category (e : PyError) : ErrorCategory :=
  let error_message := strLower e.message
  if isConnectionOrTimeout e then .network
  else if strContains error_message "authentication" ∨
      strContains error_message "unauthorized" then .authentication
  else if strContains error_message "rate limit" ∨
      strContains error_message "429" then .rate_limiting
  else if strContains error_message "database" ∨
      strContains error_message "sql" then .database
  else if strContains error_message "api" ∨
      strContains error_message "http" then .api
  else if isValueOrTypeError e then .data_validation
  else .system

/-- Embeds `ErrorRecord` dataclass (the generated `error_id` embeds a runtime
hash and the `stack_trace` is runtime text; both are omitted). -/
structure ErrorRecord where
  error_type : String
  error_message : String
  severity : ErrorSeverity
  category : ErrorCategory
  context : ErrorContext
  recovery_strategy : RecoveryStrategy
  recovery_attempts : ℕ := 0
  recovery_success : Bool := false
deriving DecidableEq, Repr

/-- Embeds `ErrorHandlingEngine._create_error_record`: classification plus the
`RecoveryStrategy.RETRY` default. -/
def create_error_record (e : PyError) (ctx : ErrorContext) : ErrorRecord :=
  { error_type := e.py_type
    error_message := e.message
    severity := classify_error_severity e ctx
    category := classify_error_category e
    context := ctx
    recovery_strategy := .retry }

/-- Embeds `ErrorHandlingEngine._determine_recovery_strategy`: the fixed
severity/category mapping. -/
def determine_recovery_strategy (r : ErrorRecord) : RecoveryStrategy :=
  if r.severity = .fatal then .manual_intervention
  else if r.category = .network then .retry_with_backoff
  else if r.category = .rate_limiting then .circuit_breaker
  else if r.category = .authentication then .escalation
  else if r.category = .api then .fallback
  else if r.category = .database then .retry_with_backoff
  else .retry

/-- One circuit breaker of `self.circuit_breakers` (timeout in
seconds; the default entry created by `_handle_circuit_breaker`). -/
structure CircuitBreaker where
  state : String
  failure_count : ℕ
  failure_threshold : ℕ
  timeout : ℤ
  last_failure : Option ℤ
deriving DecidableEq, Repr

/-- The breaker initialised on first failure of a component:
closed, zero failures, threshold 5, five-minute timeout. -/
def initialCircuitBreaker : CircuitBreaker :=
  { state := "closed", failure_count := 0, failure_threshold := 5,
    timeout := 300, last_failure := none }

/-- Result dict of a recovery handler (fields the claims read). -/
structure RecoveryResult where
  success : Bool
  action : String
  circuit_state : Option String := none
  error : Option String := none
deriving DecidableEq, Repr

/-- Embeds `ErrorHandlingEngine._handle_circuit_breaker`: create the breaker on
demand, count the failure, stamp `last_failure`, and open at the
threshold. -/
def handle_circuit_breaker (now : ℤ) (component : String)
    (cbs : List (String × CircuitBreaker)) :
    RecoveryResult × List (String × CircuitBreaker) :=
  let cb := (FFA.alookup cbs component).getD initialCircuitBreaker
  let cb := { cb with failure_count := cb.failure_count + 1,
                      last_failure := some now }
  if cb.failure_threshold ≤ cb.failure_count then
    let cb := { cb with state := "open" }
    ({ success := true, action := "circuit_breaker_open",
       circuit_state := some "open" }, FFA.ainsert cbs component cb)
  else
    ({ success := true, action := "circuit_breaker_count",
       circuit_state := some "closed" }, FFA.ainsert cbs component cb)

/-- Embeds `ErrorHandlingEngine._get_circuit_breaker_status`: a pure projection
of the state string of each breaker (no transition is performed). -/
def get_circuit_breaker_status (cbs : List (String × CircuitBreaker)) :
    List (String × String) :=
  cbs.map (fun p => (p.1, p.2.state))

/-- Embeds `ErrorHandlingEngine.reset_circuit_breaker`. -/
def reset_circuit_breaker (component : String)
    (cbs : List (String × CircuitBreaker)) :
    Bool × List (String × CircuitBreaker) :=
  match FFA.alookup cbs component with
  | some cb =>
    (true, FFA.ainsert cbs component
      { cb with state := "closed", failure_count := 0, last_failure := none })
  | none => (false, cbs)

/-- Embeds `ErrorHandlingEngine._execute_recovery` restricted to the breaker
side effect: `self.recovery_actions` defines handlers only for Retry,
RetryWithBackoff, Fallback, CircuitBreaker and GracefulDegradation; the
remaining strategies return the no-recovery-action failure dict.  Only
the CircuitBreaker handler mutates state. -/
def execute_recovery (now : ℤ) (r : ErrorRecord)
    (cbs : List (String × CircuitBreaker)) :
    RecoveryResult × List (String × CircuitBreaker) :=
  match r.recovery_strategy with
  | .retry => ({ success := true, action := "retry_operation" }, cbs)
  | .retry_with_backoff =>
    ({ success := true, action := "retry_with_backoff" }, cbs)
  | .fallback => ({ success := true, action := "fallback_method" }, cbs)
  | .circuit_breaker =>
    handle_circuit_breaker now (r.context.component.getD "unknown_component") cbs
  | .graceful_degradation =>
    ({ success := true, action := "graceful_degradation" }, cbs)
  | s =>
    ({ success := false, action := "",
       error := some ("No recovery action defined for " ++ s.value) }, cbs)

/-- The mutable state of `ErrorHandlingEngine` the claims touch:
`error_patterns` (pattern key → records, append-only) and
`circuit_breakers`.  (`error_registry` and `recovery_history` only
feed the statistics report.) -/
structure EngineState where
  error_patterns : List (String × List ErrorRecord) := []
  circuit_breakers : List (String × CircuitBreaker) := []
deriving Repr

/-- The dict returned by `ErrorHandlingEngine.handle_error`. -/
structure HandleResult where
  severity : ErrorSeverity
  category : ErrorCategory
  recovery_strategy : RecoveryStrategy
  recovery_success : Bool
deriving DecidableEq, Repr

/-- Embeds `ErrorHandlingEngine._analyze_error_patterns`: append the record
under its `errorType_categoryValue` key, and when at least five records
of that key fall inside the trailing hour, escalate an (always default,
at this point in `handle_error`) `RETRY` strategy to
`CIRCUIT_BREAKER` on the record. -/
def analyze_error_patterns (now : ℤ) (r : ErrorRecord)
    (patterns : List (String × List ErrorRecord)) :
    ErrorRecord × List (String × List ErrorRecord) :=
  let pattern_key := r.error_type ++ "_" ++ r.category.value
  let bucket := (FFA.alookup patterns pattern_key).getD [] ++ [r]
  let patterns := FFA.ainsert patterns pattern_key bucket
  let recent_errors :=
    bucket.filter (fun err => now - err.context.timestamp < 3600)
  let r :=
    if 5 ≤ recent_errors.length ∧ r.recovery_strategy = .retry then
      { r with recovery_strategy := .circuit_breaker }
    else r
  (r, patterns)

/-- Embeds `ErrorHandlingEngine.handle_error`: build and classify the record,
run the pattern analysis, then *overwrite* the strategy of the record
with the choice of `_determine_recovery_strategy`, execute the recovery, and
report.  Note the source order: the pattern escalation happens before
the determination step and is therefore always overwritten. -/
def handle_error (now : ℤ) (e : PyError) (ctx : ErrorContext)
    (st : EngineState) : HandleResult × EngineState :=
  let error_record := create_error_record e ctx
  let (error_record, patterns) :=
    analyze_error_patterns now error_record st.error_patterns
  let recovery_strategy := determine_recovery_strategy error_record
  let error_record := { error_record with recovery_strategy := recovery_strategy }
  let (recovery_result, cbs) :=
    execute_recovery now error_record st.circuit_breakers
  ({ severity := error_record.severity
     category := error_record.category
     recovery_strategy := recovery_strategy
     recovery_success := recovery_result.success },
   { error_patterns := patterns, circuit_breakers := cbs })

/-- One external event driving the circuit-breaker registry: a
`CIRCUIT_BREAKER` recovery (`_handle_circuit_breaker`) or a manual
`reset_circuit_breaker`. -/
inductive BreakerOp where
  | fail (component : String) (now : ℤ)
  | reset (component : String)
deriving DecidableEq, Repr

/-- Apply one `BreakerOp` to the registry. -/
def applyBreakerOp (cbs : List (String × CircuitBreaker)) (op : BreakerOp) :
    List (String × CircuitBreaker) :=
  match op with
  | .fail component now => (handle_circuit_breaker now component cbs).2
  | .reset component => (reset_circuit_breaker component cbs).2

/-- Run a trace of breaker operations from the empty engine registry. -/
def runBreakerOps (ops : List BreakerOp) : List (String × CircuitBreaker) :=
  ops.foldl applyBreakerOp []

end FFA.ErrorHandling

namespace FFA.Thinking

/-- Embeds `ThinkingStage` enum of `thinking.py`. -/
inductive ThinkingStage where
  | analysis
  | planning
  | segmentation
  | optimization
  | execution
  | monitoring
  | evaluation
  | adaptation
deriving DecidableEq, Repr, BEq

/-- Embeds `Priority` enum of `thinking.py`. -/
inductive Priority where
  | critical
  | high
  | medium
  | low
deriving DecidableEq, Repr, BEq

/-- Embeds `ThinkingStatus` enum of `thinking.py`. -/
inductive ThinkingStatus where
  | pending
  | in_progress
  | completed
  | failed
  | optimizing
  | adapting
deriving DecidableEq, Repr, BEq

/-- Embeds `ThinkingStep` dataclass (the free-text `description`, duration
bookkeeping and the simulated `result` payload are omitted; `result`
keeps only whether one was produced). -/
structure ThinkingStep where
  id : String
  stage : ThinkingStage
  inputs : List String
  outputs : List String
  dependencies : List String := []
  priority : Priority := .medium
  status : ThinkingStatus := .pending
  has_result : Bool := false
  errors : List String := []
deriving DecidableEq, Repr

/-- The first line of `ThinkingEngine.process_thinking_step`
(`step.status = ThinkingStatus.IN_PROGRESS`): the transition happens
unconditionally, before any step logic runs, and with no access to
other steps — the dependency list is never consulted. -/
def process_thinking_step_entry (step : ThinkingStep) : ThinkingStep :=
  { step with status := .in_progress }

/-- Embeds `ThinkingEngine.process_thinking_step` end to end: the step enters
`IN_PROGRESS`, then reaches `COMPLETED` when `_execute_step_logic`
returns, or `FAILED` with the exception text appended to `errors` when
it raises.  (The simulated payload dictionaries of `_execute_step_logic` are
irrelevant to the claims; `outcome` stands for its return-or-raise
behaviour.) -/
def process_thinking_step (step : ThinkingStep)
    (outcome : Except String Unit) : ThinkingStep × Bool :=
  let step := process_thinking_step_entry step
  match outcome with
  | .ok _ => ({ step with status := .completed, has_result := true }, true)
  | .error msg =>
    ({ step with status := .failed, errors := step.errors ++ [msg] }, false)

/-- First step of `WhatsAppCampaignThinking._generate_campaign_steps`:
`analyze_audience_data` has no dependencies. -/
def step_analyze_audience_data : ThinkingStep :=
  { id := "analyze_audience_data"
    stage := .analysis
    inputs := ["google_sheets_data", "historical_campaign_data"]
    outputs := ["audience_segments", "demographic_insights"]
    priority := .critical }

/-- Second step of `WhatsAppCampaignThinking._generate_campaign_steps`:
`analyze_historical_performance` depends on `analyze_audience_data`. -/
def step_analyze_historical_performance : ThinkingStep :=
  { id := "analyze_historical_performance"
    stage := .analysis
    inputs := ["historical_campaign_data", "conversion_data"]
    outputs := ["performance_patterns", "success_factors"]
    dependencies := ["analyze_audience_data"]
    priority := .high }

end FFA.Thinking

namespace FFA

open FFA.Monitoring FFA.ErrorHandling FFA.Thinking

/-- A concrete stand-in for the abstracted `numpy.std` function, used
to instantiate universally quantified theorems. -/
def stdZero : List ℚ → ℚ := fun _ => 0

/-- The recovery-strategy mapping exactly as the claim words it: Fatal
severity maps to ManualIntervention; otherwise Network to
RetryWithBackoff, RateLimiting to CircuitBreaker, Authentication to
Escalation, API to Fallback, Database to RetryWithBackoff, and every
other category to Retry. -/
def recovery_strategy_of_claim (severity : ErrorSeverity)
    (category : ErrorCategory) : RecoveryStrategy :=
  if severity = .fatal then .manual_intervention
  else
    match category with
    | .network => .retry_with_backoff
    | .rate_limiting => .circuit_breaker
    | .authentication => .escalation
    | .api => .fallback
    | .database => .retry_with_backoff
    | _ => .retry

/-- A three-conversion ledger (below the ten-conversion projection
gate). -/
def smallLedger : ROILedger :=
  { investment := [100]
    revenue := [300, 300, 300]
    conversions :=
      [{ student_id := "s1", revenue := 300, timestamp := 0 },
       { student_id := "s2", revenue := 300, timestamp := 1 },
       { student_id := "s3", revenue := 300, timestamp := 2 }] }

/-- A ten-conversion ledger (at the projection gate), one conversion of
revenue 100 per day over ten days. -/
def tenConversionLedger : ROILedger :=
  { investment := [200]
    revenue := [100, 100, 100, 100, 100, 100, 100, 100, 100, 100]
    conversions :=
      [{ student_id := "s0", revenue := 100, timestamp := 0 },
       { student_id := "s1", revenue := 100, timestamp := 1 },
       { student_id := "s2", revenue := 100, timestamp := 2 },
       { student_id := "s3", revenue := 100, timestamp := 3 },
       { student_id := "s4", revenue := 100, timestamp := 4 },
       { student_id := "s5", revenue := 100, timestamp := 5 },
       { student_id := "s6", revenue := 100, timestamp := 6 },
       { student_id := "s7", revenue := 100, timestamp := 7 },
       { student_id := "s8", revenue := 100, timestamp := 8 },
       { student_id := "s9", revenue := 100, timestamp := 9 }] }

/-- The §8 end-to-end scenario ledger: one investment of 5000 and
twelve conversions of 1250 each (15000 total revenue), one per day. -/
def scenarioLedger : ROILedger :=
  { investment := [5000]
    revenue := [1250, 1250, 1250, 1250, 1250, 1250, 1250, 1250, 1250, 1250,
                1250, 1250]
    conversions :=
      [{ student_id := "c0", revenue := 1250, timestamp := 0 },
       { student_id := "c1", revenue := 1250, timestamp := 1 },
       { student_id := "c2", revenue := 1250, timestamp := 2 },
       { student_id := "c3", revenue := 1250, timestamp := 3 },
       { student_id := "c4", revenue := 1250, timestamp := 4 },
       { student_id := "c5", revenue := 1250, timestamp := 5 },
       { student_id := "c6", revenue := 1250, timestamp := 6 },
       { student_id := "c7", revenue := 1250, timestamp := 7 },
       { student_id := "c8", revenue := 1250, timestamp := 8 },
       { student_id := "c9", revenue := 1250, timestamp := 9 },
       { student_id := "c10", revenue := 1250, timestamp := 10 },
       { student_id := "c11", revenue := 1250, timestamp := 11 }] }

/-- The critical ROI alert produced by the first breaching sample
(value 400 at timestamp 100, below `critical_low = 500`). -/
def scenarioAlertOne : Alert :=
  { id := "camp_roi_100", level := .critical, metric_type := .roi,
    current_value := 400, threshold_value := 500 }

/-- The critical ROI alert produced by the second breaching sample
(value 450 at timestamp 130, below `critical_low = 500`). -/
def scenarioAlertTwo : Alert :=
  { id := "camp_roi_130", level := .critical, metric_type := .roi,
    current_value := 450, threshold_value := 500 }

/-- Run `handle_error` over a list of `(handled-at, error, context)`
events from a fresh engine, collecting every returned result dict. -/
def handle_error_trace (events : List (ℤ × PyError × ErrorContext)) :
    List HandleResult × EngineState :=
  events.foldl (fun acc ev =>
    let r := handle_error ev.1 ev.2.1 ev.2.2 acc.2
    (acc.1 ++ [r.1], r.2)) ([], {})

/-- A `ConnectionError` as raised on a send through the messaging
gateway. -/
def connectionRefusedError : PyError :=
  { py_type := "ConnectionError", message := "connection refused" }

/-- A generic runtime failure whose classification falls through to the
System category (so `_determine_recovery_strategy` would pick plain
Retry). -/
def genericRuntimeError : PyError :=
  { py_type := "RuntimeError", message := "boom" }

/-- Error context on component `waha-send` inside an active campaign. -/
def wahaSendContext (t : ℤ) : ErrorContext :=
  { timestamp := t, campaign_id := some "camp1",
    component := some "waha-send" }

/-- Five same-type Network errors on `waha-send`, one minute apart —
all within the trailing hour. -/
def networkErrorEvents : List (ℤ × PyError × ErrorContext) :=
  [(0, connectionRefusedError, wahaSendContext 0),
   (60, connectionRefusedError, wahaSendContext 60),
   (120, connectionRefusedError, wahaSendContext 120),
   (180, connectionRefusedError, wahaSendContext 180),
   (240, connectionRefusedError, wahaSendContext 240)]

/-- Five same-type System errors on `waha-send`, one minute apart. -/
def systemErrorEvents : List (ℤ × PyError × ErrorContext) :=
  [(0, genericRuntimeError, wahaSendContext 0),
   (60, genericRuntimeError, wahaSendContext 60),
   (120, genericRuntimeError, wahaSendContext 120),
   (180, genericRuntimeError, wahaSendContext 180),
   (240, genericRuntimeError, wahaSendContext 240)]

/-- The per-breaker invariant maintained by the registry: open exactly
at or above the (constant, default) threshold and never in the
half-open state. -/
def BreakerInvariant (cb : CircuitBreaker) : Prop :=
  (cb.state = "open" ↔ cb.failure_threshold ≤ cb.failure_count) ∧
  cb.failure_threshold = 5 ∧
  cb.state ≠ "half_open"

/-- Five failure recoveries for `waha-send`, one minute apart. -/
def fiveFailuresTrace : List BreakerOp :=
  [.fail "waha-send" 0, .fail "waha-send" 60, .fail "waha-send" 120,
   .fail "waha-send" 180, .fail "waha-send" 240]

/-- The breaker produced by `fiveFailuresTrace`: opened on the fifth
failure, last failure stamped at 240. -/
def openedBreaker : CircuitBreaker :=
  { state := "open", failure_count := 5, failure_threshold := 5,
    timeout := 300, last_failure := some 240 }

theorem alookup_ainsert {α : Type} (m : List (String × α)) (k k' : String)
    (v : α) :
    alookup (ainsert m k v) k' = if k = k' then some v else alookup m k' := by
  induction m with
  | nil => simp [ainsert, alookup]
  | cons hd tl ih =>
    obtain ⟨k₀, v₀⟩ := hd
    by_cases h₀ : k₀ = k
    · subst h₀
      by_cases h₁ : k₀ = k'
      · subst h₁; simp [ainsert, alookup]
      · simp [ainsert, alookup, h₁]
    · by_cases h₁ : k₀ = k'
      · subst h₁
        have hne : k ≠ k₀ := fun h => h₀ h.symm
        simp [ainsert, alookup, h₀, hne]
      · simp [ainsert, alookup, h₀, h₁, ih]

theorem alookup_map_snd {α β : Type} (f : α → β) (m : List (String × α))
    (k : String) :
    FFA.alookup (m.map (fun p => (p.1, f p.2))) k =
      (FFA.alookup m k).map f := by
  induction m with
  | nil => rfl
  | cons hd tl ih =>
    obtain ⟨k₀, v₀⟩ := hd
    by_cases h : k₀ = k <;> simp [FFA.alookup, h, ih]

theorem breaker_inv_step (m : List (String × CircuitBreaker))
    (op : BreakerOp)
    (hm : ∀ c cb, FFA.alookup m c = some cb → BreakerInvariant cb) :
    ∀ c cb, FFA.alookup (applyBreakerOp m op) c = some cb →
      BreakerInvariant cb := by
  intro c cb h
  cases op with
  | fail component now =>
    have h0 : BreakerInvariant
        ((FFA.alookup m component).getD initialCircuitBreaker) := by
      cases hh : FFA.alookup m component with
      | some b => simpa [hh] using hm component b hh
      | none =>
        simp only [hh, Option.getD_none]
        refine ⟨?_, rfl, ?_⟩ <;> simp [initialCircuitBreaker]
    set cb₀ := (FFA.alookup m component).getD initialCircuitBreaker with hcb₀
    simp only [applyBreakerOp, handle_circuit_breaker, ← hcb₀] at h
    by_cases hthr : cb₀.failure_threshold ≤ cb₀.failure_count + 1
    · simp only [hthr, if_true] at h
      rw [FFA.alookup_ainsert] at h
      by_cases hc : component = c
      · simp only [hc, if_true, Option.some.injEq] at h
        subst h
        exact ⟨by simpa using hthr, h0.2.1, by simp⟩
      · exact hm c cb (by simpa [hc] using h)
    · simp only [hthr, if_false] at h
      rw [FFA.alookup_ainsert] at h
      by_cases hc : component = c
      · simp only [hc, if_true, Option.some.injEq] at h
        subst h
        have hnotopen : cb₀.state ≠ "open" := by
          intro hopen
          exact hthr (le_trans (h0.1.mp hopen) (Nat.le_succ _))
        exact ⟨by simp [hnotopen, hthr], h0.2.1, h0.2.2⟩
      · exact hm c cb (by simpa [hc] using h)
  | reset component =>
    simp only [applyBreakerOp, reset_circuit_breaker] at h
    cases hh : FFA.alookup m component with
    | some b =>
      simp only [hh] at h
      rw [FFA.alookup_ainsert] at h
      by_cases hc : component = c
      · simp only [hc, if_true, Option.some.injEq] at h
        subst h
        have hb := hm component b hh
        exact ⟨by simp [hb.2.1], hb.2.1, by simp⟩
      · exact hm c cb (by simpa [hc] using h)
    | none =>
      simp only [hh] at h
      exact hm c cb h

theorem breaker_inv_fold (ops : List BreakerOp)
    (m : List (String × CircuitBreaker))
    (hm : ∀ c cb, FFA.alookup m c = some cb → BreakerInvariant cb) :
    ∀ c cb, FFA.alookup (ops.foldl applyBreakerOp m) c = some cb →
      BreakerInvariant cb := by
  induction ops generalizing m with
  | nil => exact hm
  | cons op rest ih =>
    exact ih (applyBreakerOp m op) (breaker_inv_step m op hm)

/-- Claim C1 as amended: in the §8 scenario (`roiTarget = 2250`,
investment 5000, twelve conversions totalling 15000)
`calculate_real_time_roi` yields `roi_percentage = 200`, and the
immediate-action list of `analyze_optimization_opportunities` includes
the conversion-rate opportunity exactly when `roi_percentage < 1500` —
so here, with 200 < 1500, it MUST include one. -/
theorem immediate_conversion_action_iff_roi_below_1500 :
    (∀ (std : List ℚ → ℚ) (now : ℤ) (campaign_id : String) (l : ROILedger)
       (summary : PerformanceSummarySlice),
      ((analyze_optimization_opportunities std now campaign_id l
          summary).opportunities.immediate_actions.any
        (fun i => i.action == "improve_conversion_rate")) = true ↔
      (calculate_real_time_roi std now campaign_id l).roi_percentage < 1500) ∧
    (analyze_optimization_opportunities stdZero 12 "ffa_reactivation"
      scenarioLedger {}).roi_percentage = 200 ∧
    ((analyze_optimization_opportunities stdZero 12 "ffa_reactivation"
        scenarioLedger {}).opportunities.immediate_actions.any
      (fun i => i.action == "improve_conversion_rate")) = true := by
  have key : ∀ (std : List ℚ → ℚ) (now : ℤ) (campaign_id : String)
      (l : ROILedger) (summary : PerformanceSummarySlice),
      ((analyze_optimization_opportunities std now campaign_id l
          summary).opportunities.immediate_actions.any
        (fun i => i.action == "improve_conversion_rate")) = true ↔
      (calculate_real_time_roi std now campaign_id l).roi_percentage < 1500 := by
    intro std now campaign_id l summary
    by_cases hc : (calculate_real_time_roi std now campaign_id
        l).roi_percentage < 1500
    · simp [analyze_optimization_opportunities, hc]
    · obtain ⟨rr, dr, tr⟩ := summary
      cases rr with
      | none => simp [analyze_optimization_opportunities, hc]
      | some v =>
        by_cases hv : v < 3 / 20
        · simp [analyze_optimization_opportunities, hc, hv]
        · simp [analyze_optimization_opportunities, hc, hv]
  have hroi : (calculate_real_time_roi stdZero 12 "ffa_reactivation"
      scenarioLedger).roi_percentage = 200 := by
    norm_num [calculate_real_time_roi, scenarioLedger]
  refine ⟨key, ?_, ?_⟩
  · simpa [analyze_optimization_opportunities] using hroi
  · rw [key]
    rw [hroi]
    norm_num

/-- Counterexample to claim C1 as stated: in the §8 scenario the ROI is
200% — which is *below* 1500 — so `analyze_optimization_opportunities`
DOES put the `improve_conversion_rate` opportunity on the
immediate-action list, contradicting the claim that it must not include
one. -/
theorem scenario_includes_conversion_action :
    (analyze_optimization_opportunities stdZero 12 "ffa_reactivation"
      scenarioLedger {}).roi_percentage = 200 ∧
    ((analyze_optimization_opportunities stdZero 12 "ffa_reactivation"
        scenarioLedger {}).opportunities.immediate_actions.filter
      (fun i => i.action = "improve_conversion_rate")).length = 1 := by
  have hroi : (calculate_real_time_roi stdZero 12 "ffa_reactivation"
      scenarioLedger).roi_percentage = 200 := by
    norm_num [calculate_real_time_roi, scenarioLedger]
  have hlt : (calculate_real_time_roi stdZero 12 "ffa_reactivation"
      scenarioLedger).roi_percentage < 1500 := by
    rw [hroi]; norm_num
  constructor
  · simpa [analyze_optimization_opportunities] using hroi
  · simp [analyze_optimization_opportunities, hlt]

/-- Claim C2 is violated by the code: two consecutive samples breaching
the same (metric, level) pair each produce an alert — `_handle_alert`
compares the composite key `roi_critical` against a dict keyed by alert
ids of the shape `camp_roi_100`, so the suppression test never matches
and after the second breach TWO active unacknowledged `(roi, critical)`
alerts exist instead of exactly one. -/
theorem alert_deduplication_never_fires :
    evaluate_threshold "camp" .roi 400 roiThresholds 100
      = some scenarioAlertOne ∧
    evaluate_threshold "camp" .roi 450 roiThresholds 130
      = some scenarioAlertTwo ∧
    handle_alert (handle_alert [] scenarioAlertOne) scenarioAlertTwo =
      [("camp_roi_100", scenarioAlertOne),
       ("camp_roi_130", scenarioAlertTwo)] ∧
    ((handle_alert (handle_alert [] scenarioAlertOne)
        scenarioAlertTwo).countP
      (fun p => p.2.metric_type == MetricType.roi &&
        p.2.level == AlertLevel.critical && !p.2.acknowledged)) = 2 := by
  decide

/-- Claim C3 is violated by the code: `process_thinking_step` puts its
step `IN_PROGRESS` as its very first action, consulting no other step —
here `analyze_historical_performance` is processed (and completed)
while its declared dependency `analyze_audience_data` is still
`PENDING`. -/
theorem step_runs_with_incomplete_dependency :
    step_analyze_audience_data.status = ThinkingStatus.pending ∧
    step_analyze_audience_data.id ∈
      step_analyze_historical_performance.dependencies ∧
    (process_thinking_step_entry step_analyze_historical_performance).status
      = ThinkingStatus.in_progress ∧
    (process_thinking_step step_analyze_historical_performance
        (Except.ok ())).1.status = ThinkingStatus.completed := by
  decide

/-- Claim C4 is violated by the code: `handle_error` runs
`_analyze_error_patterns` (which escalates the still-default `RETRY`
strategy to `CIRCUIT_BREAKER` on the fifth same-pattern error inside an
hour) *before* `_determine_recovery_strategy`, whose result then
overwrites the strategy of the record.  On the fifth Network error for
`waha-send` the pattern bucket indeed holds five records, yet the
returned strategy is `retry_with_backoff` and no circuit breaker for
`waha-send` ever exists — it cannot open on the 5th occurrence.  Even
on a record whose determined strategy IS plain `retry` (the System
trace), the fifth result still reports `retry`, not
`circuit_breaker`. -/
theorem pattern_escalation_is_overwritten :
    ((FFA.alookup (handle_error_trace networkErrorEvents).2.error_patterns
        "ConnectionError_network").getD []).length = 5 ∧
    (handle_error_trace networkErrorEvents).1.getLast? = some
      { severity := .critical, category := .network,
        recovery_strategy := .retry_with_backoff,
        recovery_success := true } ∧
    FFA.alookup (handle_error_trace networkErrorEvents).2.circuit_breakers
      "waha-send" = none ∧
    ((FFA.alookup (handle_error_trace systemErrorEvents).2.error_patterns
        "RuntimeError_system").getD []).length = 5 ∧
    (handle_error_trace systemErrorEvents).1.getLast? = some
      { severity := .medium, category := .system,
        recovery_strategy := .retry, recovery_success := true } ∧
    FFA.alookup (handle_error_trace systemErrorEvents).2.circuit_breakers
      "waha-send" = none := by
  decide

/-- Claim C5 as amended: along every trace of circuit-breaker events
(failure recoveries and manual resets) from a fresh registry, every
component's breaker is `open` exactly when its `failure_count` has
reached its `failure_threshold` (which is always the default 5) — it
never opens below threshold.  However, an open breaker is NOT released
by observation: the registry never holds a `half_open` state, and
`_get_circuit_breaker_status` reports the stored state unchanged, so an
open breaker stays open (regardless of elapsed cool-down) until a
manual reset. -/
theorem circuit_breaker_state_machine (ops : List BreakerOp)
    (component : String) (cb : CircuitBreaker)
    (h : FFA.alookup (runBreakerOps ops) component = some cb) :
    (cb.state = "open" ↔ cb.failure_threshold ≤ cb.failure_count) ∧
    cb.failure_threshold = 5 ∧
    cb.state ≠ "half_open" ∧
    FFA.alookup (get_circuit_breaker_status (runBreakerOps ops)) component
      = some cb.state := by
  have hinv := breaker_inv_fold ops []
    (by intro c cb hc; simp [FFA.alookup] at hc) component cb h
  refine ⟨hinv.1, hinv.2.1, hinv.2.2, ?_⟩
  unfold get_circuit_breaker_status
  rw [alookup_map_snd]
  simp [runBreakerOps] at h
  simp [runBreakerOps, h]

/-- Counterexample to claim C5 as stated: after five failures the
`waha-send` breaker is open with `last_failure = 240`; a status
observation at time 1000 — more than the 300-second cool-down past the
last failure — still reports `open` (the source has no open→half-open
transition), so the breaker DOES remain open past the cool-down. -/
theorem open_breaker_stays_open_past_cooldown :
    FFA.alookup (runBreakerOps fiveFailuresTrace) "waha-send"
      = some openedBreaker ∧
    openedBreaker.timeout ≤ (1000 : ℤ) - 240 ∧
    FFA.alookup (get_circuit_breaker_status (runBreakerOps fiveFailuresTrace))
      "waha-send" = some "open" := by
  decide

/-- Witness for claim C5 at the concrete five-failure trace. -/
theorem circuit_breaker_state_machine_witness :
    (FFA.alookup (runBreakerOps fiveFailuresTrace) "waha-send"
      = some openedBreaker) ∧
    ((openedBreaker.state = "open" ↔
        openedBreaker.failure_threshold ≤ openedBreaker.failure_count) ∧
     openedBreaker.failure_threshold = 5 ∧
     openedBreaker.state ≠ "half_open" ∧
     FFA.alookup (get_circuit_breaker_status (runBreakerOps fiveFailuresTrace))
       "waha-send" = some openedBreaker.state) :=
  ⟨by decide,
   circuit_breaker_state_machine fiveFailuresTrace "waha-send" openedBreaker
     (by decide)⟩

/-- Claim C6: `calculate_real_time_roi` is a pure function of the
cumulative investment and revenue lists — for investment `[100, 50]`
and revenue `[300]`, whatever the conversion ledger, the clock and the
standard-deviation backend, it returns `roi_percentage = 100` (that is,
`(300 − 150) / 150 × 100`) and `net_profit = 150 = 300 − 150`, over the
cumulative sums `total_investment = 150` and `total_revenue = 300`. -/
theorem roi_of_concrete_ledger (conversions : List Conversion)
    (std : List ℚ → ℚ) (now : ℤ) (campaign_id : String) :
    (calculate_real_time_roi std now campaign_id
      { investment := [100, 50], revenue := [300],
        conversions := conversions }).roi_percentage = 100 ∧
    (calculate_real_time_roi std now campaign_id
      { investment := [100, 50], revenue := [300],
        conversions := conversions }).net_profit = 150 ∧
    (calculate_real_time_roi std now campaign_id
      { investment := [100, 50], revenue := [300],
        conversions := conversions }).total_investment = 150 ∧
    (calculate_real_time_roi std now campaign_id
      { investment := [100, 50], revenue := [300],
        conversions := conversions }).total_revenue = 300 := by
  refine ⟨?_, ?_, ?_, ?_⟩ <;> simp [calculate_real_time_roi] <;> norm_num

/-- Claim C7: `_determine_recovery_strategy` is a deterministic total
mapping of the classified record that agrees with the claimed
severity/category table (`recovery_strategy_of_claim`); being a
function, it chooses exactly one strategy per record. -/
theorem determine_recovery_strategy_spec (r : ErrorRecord) :
    determine_recovery_strategy r =
      recovery_strategy_of_claim r.severity r.category := by
  obtain ⟨_, _, sev, cat, _, _, _, _⟩ := r
  cases sev <;> cases cat <;> rfl

/-- Claim C8: with fewer than ten recorded conversions
`_generate_roi_projections` returns the zeroed result
(`projected_final_roi = 0`, `confidence_level = 0`,
`projected_total_revenue = 0`); with at least ten conversions and a
positive mean of the trailing (up to) twenty conversion revenues, the
confidence level is `max 0 (1 − stddev/mean)` over those revenues, and
the projection extrapolates the daily revenue rate of the most recent
ten conversions (over the elapsed days) across the remaining days of
the 21-day horizon. -/
theorem roi_projections_spec :
    (∀ (std : List ℚ → ℚ) (now : ℤ) (l : ROILedger),
      l.conversions.length < 10 →
      (generate_roi_projections std now l).projected_final_roi = 0 ∧
      (generate_roi_projections std now l).confidence_level = 0 ∧
      (generate_roi_projections std now l).projected_total_revenue = 0) ∧
    (∀ (std : List ℚ → ℚ) (now : ℤ) (l : ROILedger),
      10 ≤ l.conversions.length →
      0 < (revenueValues l).sum / ((revenueValues l).length : ℚ) →
      (generate_roi_projections std now l).confidence_level =
        max 0 (1 - std (revenueValues l) /
          ((revenueValues l).sum / ((revenueValues l).length : ℚ))) ∧
      (generate_roi_projections std now l).projected_total_revenue =
        l.revenue.sum +
          ((recentConversions l).map Conversion.revenue).sum /
            ((max (daysElapsed now l) 1 : ℤ) : ℚ) *
            ((max (21 - daysElapsed now l) 0 : ℤ) : ℚ)) := by
  constructor
  · intro std now l h
    simp [generate_roi_projections, h]
  · intro std now l hlen hmean
    have hnotlt : ¬ l.conversions.length < 10 := by omega
    have hvlen : 10 ≤ (revenueValues l).length := by
      simp only [revenueValues, List.length_map, List.length_drop]
      omega
    have hone : 1 < (revenueValues l).length := by omega
    have hne : revenueValues l ≠ [] := by
      intro hnil
      rw [hnil] at hvlen
      simp at hvlen
    constructor
    · simp [generate_roi_projections, hnotlt, hne, hone, hmean]
    · simp [generate_roi_projections, hnotlt]

/-- Witness for claim C8: the zeroed result on the three-conversion
ledger, and the confidence/extrapolation equations on the
ten-conversion ledger observed at day 10. -/
theorem roi_projections_spec_witness :
    (smallLedger.conversions.length < 10 ∧
     (generate_roi_projections stdZero 5 smallLedger).projected_final_roi = 0 ∧
     (generate_roi_projections stdZero 5 smallLedger).confidence_level = 0 ∧
     (generate_roi_projections stdZero 5 smallLedger).projected_total_revenue
        = 0) ∧
    (10 ≤ tenConversionLedger.conversions.length ∧
     0 < (revenueValues tenConversionLedger).sum /
        ((revenueValues tenConversionLedger).length : ℚ) ∧
     (generate_roi_projections stdZero 10 tenConversionLedger).confidence_level
        = max 0 (1 - stdZero (revenueValues tenConversionLedger) /
            ((revenueValues tenConversionLedger).sum /
              ((revenueValues tenConversionLedger).length : ℚ))) ∧
     (generate_roi_projections stdZero 10
        tenConversionLedger).projected_total_revenue =
       tenConversionLedger.revenue.sum +
         ((recentConversions tenConversionLedger).map Conversion.revenue).sum /
           ((max (daysElapsed 10 tenConversionLedger) 1 : ℤ) : ℚ) *
           ((max (21 - daysElapsed 10 tenConversionLedger) 0 : ℤ) : ℚ)) :=
  ⟨⟨by decide, roi_projections_spec.1 stdZero 5 smallLedger (by decide)⟩,
   ⟨by decide,
    by norm_num [revenueValues, tenConversionLedger],
    roi_projections_spec.2 stdZero 10 tenConversionLedger (by decide)
      (by norm_num [revenueValues, tenConversionLedger])⟩⟩

/-- Claim C9: for any action name outside the four known optimization
actions, `implement_optimization` returns a structured result with
`success = false` and an error message naming the unknown action (the
unknown name takes the early-return branch, never an exception). -/
theorem implement_optimization_unknown_action (campaign_id action : String)
    (h₁ : action ≠ "improve_conversion_rate")
    (h₂ : action ≠ "optimize_message_timing")
    (h₃ : action ≠ "investigate_delivery_issues")
    (h₄ : action ≠ "scale_successful_segments") :
    (implement_optimization campaign_id action).success = false ∧
    (implement_optimization campaign_id action).error =
      some ("Unknown optimization action: " ++ action) := by
  simp [implement_optimization, h₁, h₂, h₃, h₄]

/-- Witness for claim C9 at the concrete unknown action name
`"boost_engagement"`. -/
theorem implement_optimization_unknown_action_witness :
    (("boost_engagement" : String) ≠ "improve_conversion_rate" ∧
     ("boost_engagement" : String) ≠ "optimize_message_timing" ∧
     ("boost_engagement" : String) ≠ "investigate_delivery_issues" ∧
     ("boost_engagement" : String) ≠ "scale_successful_segments") ∧
    (implement_optimization "campaign_650" "boost_engagement").success
        = false ∧
    (implement_optimization "campaign_650" "boost_engagement").error =
      some ("Unknown optimization action: " ++ "boost_engagement") :=
  ⟨⟨by decide, by decide, by decide, by decide⟩,
   implement_optimization_unknown_action "campaign_650" "boost_engagement"
     (by decide) (by decide) (by decide) (by decide)⟩

/-- Claim C10: with an empty investment list the division-by-zero guard
of `calculate_real_time_roi` fires — the result has
`roi_percentage = 0`, `roi_ratio = 0` and `net_profit` equal to the
total revenue, for every revenue and conversion ledger. -/
theorem roi_of_zero_investment (revenue : List ℚ)
    (conversions : List Conversion) (std : List ℚ → ℚ) (now : ℤ)
    (campaign_id : String) :
    (calculate_real_time_roi std now campaign_id
      { investment := [], revenue := revenue,
        conversions := conversions }).roi_percentage = 0 ∧
    (calculate_real_time_roi std now campaign_id
      { investment := [], revenue := revenue,
        conversions := conversions }).roi_ratio = 0 ∧
    (calculate_real_time_roi std now campaign_id
      { investment := [], revenue := revenue,
        conversions := conversions }).net_profit = revenue.sum := by
  refine ⟨?_, ?_, ?_⟩ <;> simp [calculate_real_time_roi]

end FFA
